import Mathlib

/-!
Verification of the push-notification verification and incremental-change
synchronization pipeline of the google-mcp-oauth Worker.

The definitions below are a shallow embedding of the source files
`src/api/lib/google-auth.ts`, `src/api/index.ts` and
`src/api/GoogleService.ts`:

* JavaScript `string | undefined` values become `Option String`; a JS
  truthiness test `if (x)` on a string becomes `optTruthy` (non-empty
  string).
* The claim-enforcement block of `googlePubSubOidcAuthMiddleware`
  (lines 112-141 of google-auth.ts, after the tokeninfo fetch) becomes
  the pure function `enforceClaims`; every `throw new HTTPException(401, ...)`
  becomes an `Except.error` with `rejectionStatus` 401.
* The `/webhooks/email-notify` handler (index.ts lines 247-372) becomes
  `emailNotifyHandler`, parameterised over the decoded payload, the
  attribute map, the two request headers, the stored checkpoint and the
  change enumerator; KV writes and enumerator invocations are recorded as
  an ordered event list.
* `GoogleService.listInboxAddsSince` (GoogleService.ts lines 422-469)
  becomes `listInboxAddsSince`, with the upstream history modelled as the
  function from fetch index to the page returned by that fetch.
-/

/-- JavaScript truthiness of a `string | undefined` value: defined and
non-empty. -/
def optTruthy : Option String → Bool
  | some s => decide (s ≠ "")
  | none => false

/-- The `email_verified` claim is `string | boolean` in the source
(`PubSubClaims` in google-auth.ts). -/
inductive EmailVerifiedClaim
  | ofBool (b : Bool)
  | ofString (s : String)
deriving DecidableEq

/-- The claims returned by the tokeninfo verification call
(google-auth.ts lines 26-33), restricted to the fields the middleware
enforces. -/
structure PubSubClaims where
  iss : String
  aud : String
  email : String
  email_verified : EmailVerifiedClaim
deriving DecidableEq

/-- The four `throw new HTTPException(401, ...)` sites of the
claim-enforcement block (google-auth.ts lines 113-136). -/
inductive AuthRejection
  | invalidIssuer
  | invalidAudience
  | invalidSignerEmail
  | emailNotVerified
deriving DecidableEq

/-- Every rejection of the claim-enforcement block is thrown as an
`HTTPException(401, ...)` in the source. -/
def rejectionStatus : AuthRejection → Nat
  | .invalidIssuer => 401
  | .invalidAudience => 401
  | .invalidSignerEmail => 401
  | .emailNotVerified => 401

/-- The "Enforce claims" block of `googlePubSubOidcAuthMiddleware`
(google-auth.ts lines 112-141): issuer, audience, signer email and
email-verified checks, in source order.  `expectedAudience` is the value
resolved at lines 70-73 (the request URL by default) and
`configuredEmail` the one resolved at lines 75-78. -/
def enforceClaims (claims : PubSubClaims) (expectedAudience : String)
    (configuredEmail : String) : Except AuthRejection PubSubClaims :=
  if claims.iss ≠ "https://accounts.google.com" then
    .error .invalidIssuer
  else if claims.aud ≠ expectedAudience then
    .error .invalidAudience
  else if claims.email ≠ configuredEmail then
    .error .invalidSignerEmail
  else
    let verified := claims.email_verified == EmailVerifiedClaim.ofBool true
      || claims.email_verified == EmailVerifiedClaim.ofString "true"
    if !verified then
      .error .emailNotVerified
    else
      .ok claims

/-- Whether `b` is a leading segment of `l` (character-list version of
`String.startsWith`, kept kernel-friendly for concrete evaluation). -/
def leadsList : List Char → List Char → Bool
  | [], _ => true
  | _ :: _, [] => false
  | x :: xs, y :: ys => x == y && leadsList xs ys

/-- Split `cs` at the first occurrence of the pattern `pat`, returning the
part before it and the part after it (the pattern removed), or `none`
when the pattern does not occur. -/
def splitOnSub (pat : List Char) : List Char → Option (List Char × List Char)
  | [] => none
  | x :: xs =>
    if leadsList pat (x :: xs) then some ([], (x :: xs).drop pat.length)
    else
      match splitOnSub pat xs with
      | some (a, b) => some (x :: a, b)
      | none => none

/-- Split at the first occurrence of the character `c`; the second
component is `none` when `c` does not occur. -/
def splitFirstChar (c : Char) (cs : List Char) : List Char × Option (List Char) :=
  match splitOnSub [c] cs with
  | some (a, b) => (a, some b)
  | none => (cs, none)

/-- Split an authority-plus-path into host (up to the first `/`) and path
(from the first `/` on, empty when there is no `/`). -/
def splitHostPath (cs : List Char) : List Char × List Char :=
  match splitOnSub ['/'] cs with
  | some (h, p) => (h, '/' :: p)
  | none => (cs, [])

/-- Modelled from the spec: the URL shape used by the spec's
prefix-of-URL audience policy (spec section 4.1 step 4) — scheme, host
(with port), path, optional query and fragment.  This definition exists
only to state the claimed audience policy for comparison with the
source's check in `enforceClaims`; the source itself performs no URL
parsing. -/
structure SpecUrl where
  scheme : List Char
  host : List Char
  path : List Char
  query : Option (List Char)
  fragment : Option (List Char)

/-- Modelled from the spec: parse a well-formed absolute URL into scheme,
host, path, query and fragment; scheme and host are lowercased for the
case-insensitive origin compare the spec prescribes. -/
def specParseUrl (s : String) : Option SpecUrl :=
  match splitOnSub [':', '/', '/'] s.toList with
  | none => none
  | some (scheme, rest) =>
    if scheme.isEmpty || rest.isEmpty then none
    else
      let (beforeFrag, fragment) := splitFirstChar '#' rest
      let (beforeQuery, query) := splitFirstChar '?' beforeFrag
      let (host, path) := splitHostPath beforeQuery
      if host.isEmpty then none
      else
        some { scheme := scheme.map Char.toLower, host := host.map Char.toLower,
               path := path, query := query, fragment := fragment }

/-- Modelled from the spec: the prefix-of-URL audience matching policy of
spec section 4.1 step 4 — identical scheme+host+port (case-insensitive),
claimed path equal to the expected path or a strict sub-path of it, no
query or fragment on the claimed audience; falling back to plain
string-prefix comparison when the claimed audience is not a well-formed
URL.  Stated only to be compared with the audience check the source
actually performs in `enforceClaims`. -/
def specAudienceMatches (aud expected : String) : Bool :=
  match specParseUrl aud, specParseUrl expected with
  | some a, some p =>
    a.scheme == p.scheme && a.host == p.host
      && a.query.isNone && a.fragment.isNone
      && (a.path == p.path || leadsList (p.path ++ ['/']) a.path)
  | _, _ => leadsList expected.toList aud.toList

/-- An entry of `message.messagesAdded[i].message` in a Gmail history
record (`added?.message?.id` in the source). -/
structure MessageRef where
  id : Option String
deriving DecidableEq

/-- One element of a history record's `messagesAdded` array. -/
structure MessageAdded where
  message : Option MessageRef
deriving DecidableEq

/-- One element of a page's `history` array. -/
structure HistoryRecord where
  messagesAdded : Option (List MessageAdded)
deriving DecidableEq

/-- One page of `users/me/history` as consumed by `listInboxAddsSince`:
`data.history`, `data.historyId` and `data.nextPageToken`. -/
structure HistoryPage where
  history : Option (List HistoryRecord)
  historyId : Option String
  nextPageToken : Option String
deriving DecidableEq

/-- The accumulated result of `listInboxAddsSince`
(GoogleService.ts lines 422-426). -/
structure EnumRes where
  messageIds : List String
  latestHistoryId : String
  hasMore : Bool
deriving DecidableEq

/-- The id-collection loop of `listInboxAddsSince`
(GoogleService.ts lines 450-457): for every history record of the page,
for every `messagesAdded` entry, push `added?.message?.id` when truthy. -/
def collectPageIds (data : HistoryPage) : List String :=
  (data.history.getD []).flatMap fun h =>
    (h.messagesAdded.getD []).filterMap fun added =>
      match added.message.bind (fun m => m.id) with
      | some id => if id ≠ "" then some id else none
      | none => none

/-- The running-cursor update of `listInboxAddsSince`
(GoogleService.ts lines 458-460): `if (data.historyId) latestHistoryId =
data.historyId`. -/
def pageUpdCursor (latest : String) (data : HistoryPage) : String :=
  if optTruthy data.historyId then data.historyId.getD latest else latest

/-- Source constant `const pageLimit = 10` (GoogleService.ts line 427). -/
def pageLimit : Nat := 10

/-- The `while (true)` loop of `listInboxAddsSince`
(GoogleService.ts lines 438-466).  The upstream history API is modelled
as the function `fetchPage` from the fetch index (the number of pages
fetched so far, which the source threads as opaque continuation tokens)
to the page that fetch returns.  `pages` is the source's `pages` counter
at loop entry, so the guard is the source's `pages++ > pageLimit`. -/
def listInboxGo (fetchPage : Nat → HistoryPage) (pages : Nat)
    (messageIds : List String) (latestHistoryId : String) : EnumRes :=
  if pages > pageLimit then
    { messageIds := messageIds, latestHistoryId := latestHistoryId, hasMore := true }
  else
    let data := fetchPage pages
    let messageIds2 := messageIds ++ collectPageIds data
    let latest2 := pageUpdCursor latestHistoryId data
    if optTruthy data.nextPageToken then
      listInboxGo fetchPage (pages + 1) messageIds2 latest2
    else
      { messageIds := messageIds2, latestHistoryId := latest2, hasMore := false }
termination_by pageLimit + 1 - pages
decreasing_by simp only [pageLimit] at *; omega

/-- Entry point `listInboxAddsSince(startHistoryId)` (GoogleService.ts lines 422-469):
`messageIds = []`, `latestHistoryId = startHistoryId`, `pages = 0`. -/
def listInboxAddsSince (fetchPage : Nat → HistoryPage) (startHistoryId : String) : EnumRes :=
  listInboxGo fetchPage 0 [] startHistoryId

/-- The ids collected, in append order, from the `k` pages fetched at
indices `c, c+1, ..., c+k-1`. -/
def collectSeg (fetchPage : Nat → HistoryPage) : Nat → Nat → List String
  | _, 0 => []
  | c, k + 1 => collectPageIds (fetchPage c) ++ collectSeg fetchPage (c + 1) k

/-- The running cursor after folding the truthy `historyId` values of the
`k` pages fetched at indices `c, ..., c+k-1` over the start value. -/
def cursorSeg (fetchPage : Nat → HistoryPage) : String → Nat → Nat → String
  | latest, _, 0 => latest
  | latest, c, k + 1 => cursorSeg fetchPage (pageUpdCursor latest (fetchPage c)) (c + 1) k

/-- The fields the handler extracts from the JSON payload decoded out of
`message.data` (`{ emailAddress, historyId }`, index.ts line 248 and
types.d.ts `EmailProcessData`); a missing JS property is `none`. -/
structure ParsedPayload where
  emailAddress : Option String
  historyId : Option String
deriving DecidableEq

/-- JavaScript `a ?? b` on `string | undefined` values. -/
def nullishCoalesce (a b : Option String) : Option String :=
  match a with
  | some v => some v
  | none => b

/-- Value of `payload.emailAddress` when `JSON.parse` succeeded (index.ts
lines 271-276); `none` when the parse threw and the variable kept its
`undefined` initial value. -/
def payloadEmailAddress : Option ParsedPayload → Option String
  | some p => p.emailAddress
  | none => none

/-- Value of `payload.historyId` when `JSON.parse` succeeded; `none` when the
parse threw. -/
def payloadHistoryId : Option ParsedPayload → Option String
  | some p => p.historyId
  | none => none

/-- Lookup `body.message?.attributes?.[key]` in the optional flat
attribute map. -/
def attrGet (attrs : Option (List (String × String))) (key : String) : Option String :=
  attrs.bind fun a => a.lookup key

/-- Assignment `emailAddress = emailAddress ?? body.message?.attributes?.emailAddress`
(index.ts line 279). -/
def extractedEmailAddress (parsed : Option ParsedPayload)
    (attrs : Option (List (String × String))) : Option String :=
  nullishCoalesce (payloadEmailAddress parsed) (attrGet attrs "emailAddress")

/-- Assignment `historyId = historyId ?? body.message?.attributes?.historyId`
(index.ts line 280). -/
def extractedHistoryId (parsed : Option ParsedPayload)
    (attrs : Option (List (String × String))) : Option String :=
  nullishCoalesce (payloadHistoryId parsed) (attrGet attrs "historyId")

/-- JavaScript template interpolation of a `string | undefined` value:
`` `${historyId}` `` (index.ts line 307) yields the literal string
`"undefined"` when the value is undefined. -/
def templateInterp : Option String → String
  | some s => s
  | none => "undefined"

/-- JSON string escaping as performed by `JSON.stringify` for the
characters that can occur here (quote, backslash and the common control
characters). -/
def jsonEscapeChar (c : Char) : String :=
  if c = '"' then "\\\""
  else if c = '\\' then "\\\\"
  else if c = '\n' then "\\n"
  else if c = '\r' then "\\r"
  else if c = '\t' then "\\t"
  else if c = '\x08' then "\\b"
  else if c = '\x0c' then "\\f"
  else String.singleton c

/-- Escape a whole string for inclusion in a JSON document. -/
def jsonEscape (s : String) : String :=
  String.join (s.toList.map jsonEscapeChar)

/-- A JSON string literal. -/
def jsonQuote (s : String) : String :=
  "\"" ++ jsonEscape s ++ "\""

/-- Rendering by `JSON.stringify` of the `emailIds` array at nesting depth 1 with
indent 2, as in `JSON.stringify(respData, null, 2)`. -/
def stringifyEmailIds (ids : List String) : String :=
  match ids with
  | [] => "[]"
  | _ => "[\n" ++ String.intercalate ",\n" (ids.map fun id => "    " ++ jsonQuote id)
      ++ "\n  ]"

/-- Rendering `JSON.stringify(respData, null, 2)` for
`respData = { name: server, emailAddress, emailIds }`
(index.ts lines 346-350); a JS `undefined` property is omitted by
`JSON.stringify`. -/
def stringifyRespData (name : String) (emailAddress : Option String)
    (emailIds : List String) : String :=
  "\x7b\n  \"name\": " ++ jsonQuote name ++ ",\n"
    ++ (match emailAddress with
        | some ea => "  \"emailAddress\": " ++ jsonQuote ea ++ ",\n"
        | none => "")
    ++ "  \"emailIds\": " ++ stringifyEmailIds emailIds ++ "\n\x7d"

/-- The `promptContent` string built at index.ts lines 356-360. -/
def promptFor (server : String) (emailAddress : Option String)
    (messageIds : List String) : String :=
  "Google email notification received:\n\n```json\n"
    ++ stringifyRespData server emailAddress messageIds ++ "\n```"

/-- Type `WebhookProcessResponse` of types.d.ts lines 59-61: the payload the
declared response type carries under `processData`. -/
structure WebhookProcessResponse where
  promptContent : Option String
deriving DecidableEq

/-- The response object literally built by the handler (index.ts
lines 337-341 and 352-361).  The source annotates it as the
`WebhookResponse` type of types.d.ts — whose optional `processData`
field it never sets — and adds `promptContent` at the top level, a field
the declared type does not have; both optional fields are carried here so
the discrepancy is expressible. -/
structure WebhookResponse where
  reqResponseCode : Nat
  reqResponseContent : String
  reqResponseContentType : Option String
  promptContent : Option String
  processData : Option WebhookProcessResponse
deriving DecidableEq

/-- The two ways the handler answers: `c.json({ error }, 400)` or
`c.json(response, status)`. -/
inductive HandlerResult
  | errorJson (message : String) (status : Nat)
  | okJson (resp : WebhookResponse) (status : Nat)
deriving DecidableEq

/-- The externally observable side effects of one handler run, in program
order: the `listInboxAddsSince` invocation and the `putServerCursor`
write (kv-helpers.ts stores under key `cursor:` ++ serverName). -/
inductive HandlerEvent
  | enumCall (startHistoryId : String)
  | cursorPut (serverName : String) (historyId : String)
deriving DecidableEq

/-- JavaScript `s.slice(n)` (drop the first `n` characters), stated over
the character list so concrete instances evaluate in the kernel. -/
def jsSlice (s : String) (n : Nat) : String :=
  String.mk (s.toList.drop n)

/-- JavaScript `s.trim()` (strip leading and trailing whitespace), stated
over the character list so concrete instances evaluate in the kernel. -/
def jsTrim (s : String) : String :=
  String.mk ((((s.toList.dropWhile Char.isWhitespace).reverse).dropWhile
    Char.isWhitespace).reverse)

/-- Message of the `new Error` thrown by `GoogleService.makeRequest` on a
non-ok upstream response (GoogleService.ts lines 33-36). -/
def makeRequestError (status : Nat) (text : String) : String :=
  "Google API error " ++ toString status ++ ": " ++ text

/-- The `/webhooks/email-notify` handler (index.ts lines 247-372), after
the OIDC middleware and the envelope decode.  Parameters:
`parsed` is the outcome of `JSON.parse` on the decoded `message.data`
(`none` when it threw, index.ts lines 271-277); `attrs` is
`body.message?.attributes`; `serverHeader` and `mcpAuthHeader` are the
`x-mcp-name` and `x-mcp-authorization` request headers; `storedCursor` is
`getServerCursor(env, server)`; `listInbox` is
`api.listInboxAddsSince`, returning `Except.error` with the thrown
message when the upstream call fails — any such throw is caught by the
handler's catch-all, which answers
`c.json({ error: e?.message ?? ... }, 400)` (index.ts lines 364-371). -/
def emailNotifyHandler
    (parsed : Option ParsedPayload)
    (attrs : Option (List (String × String)))
    (serverHeader : Option String)
    (mcpAuthHeader : Option String)
    (storedCursor : Option String)
    (listInbox : String → Except String EnumRes) :
    List HandlerEvent × HandlerResult :=
  let emailAddress := extractedEmailAddress parsed attrs
  let historyId := extractedHistoryId parsed attrs
  if !optTruthy serverHeader then
    ([], .errorJson "missing server name" 400)
  else
    let server := serverHeader.getD ""
    if !optTruthy mcpAuthHeader then
      ([], .errorJson "missing MCP authorization header" 400)
    else
      let accessToken := jsTrim (jsSlice (mcpAuthHeader.getD "") 7)
      if accessToken = "" then
        ([], .errorJson "missing access token" 400)
      else
        let latestHistoryId := templateInterp historyId
        if !optTruthy storedCursor then
          ([], .errorJson "missing last processed history ID" 400)
        else
          let lastHistoryId := storedCursor.getD ""
          match listInbox lastHistoryId with
          | .error e => ([HandlerEvent.enumCall lastHistoryId], .errorJson e 400)
          | .ok result =>
            let events := [HandlerEvent.enumCall lastHistoryId,
                           HandlerEvent.cursorPut server latestHistoryId]
            if result.messageIds.length = 0 then
              (events, .okJson { reqResponseCode := 202, reqResponseContent := "",
                                 reqResponseContentType := some "text",
                                 promptContent := none, processData := none } 200)
            else
              (events, .okJson { reqResponseCode := 202, reqResponseContent := "",
                                 reqResponseContentType := some "text",
                                 promptContent := some (promptFor server emailAddress result.messageIds),
                                 processData := none } 200)

/-- The success response as a function of the items found: the no-items
literal of index.ts lines 337-341, or the items-found literal of
lines 352-361. -/
def successResponse (server : String) (emailAddress : Option String)
    (messageIds : List String) : WebhookResponse :=
  if messageIds.length = 0 then
    { reqResponseCode := 202, reqResponseContent := "",
      reqResponseContentType := some "text",
      promptContent := none, processData := none }
  else
    { reqResponseCode := 202, reqResponseContent := "",
      reqResponseContentType := some "text",
      promptContent := some (promptFor server emailAddress messageIds),
      processData := none }

/-- C1 (amended): the audience check of the Token Verifier is exact
string equality between the claimed audience and the expected audience
(`claims.aud !== expectedAudience`, google-auth.ts line 117): for a token
passing the issuer check, any claimed audience different from the
expected audience — including a strict URL sub-path of it with identical
origin — is rejected with a 401-class rejection, and verification can
only succeed when the two strings are exactly equal.  No URL parsing,
origin comparison or query/fragment handling is performed. -/
theorem audience_check_is_exact_equality (c : PubSubClaims) (ea ce : String) :
    (c.iss = "https://accounts.google.com" → c.aud ≠ ea →
      enforceClaims c ea ce = .error .invalidAudience
        ∧ rejectionStatus .invalidAudience = 401)
    ∧ (∀ r, enforceClaims c ea ce = .ok r → c.aud = ea) := by
  constructor
  · intro hiss hneq
    refine ⟨?_, rfl⟩
    unfold enforceClaims
    rw [if_neg (by simp [hiss]), if_pos hneq]
  · intro r hok
    unfold enforceClaims at hok
    by_cases h1 : c.iss ≠ "https://accounts.google.com"
    · rw [if_pos h1] at hok
      exact absurd hok (by simp)
    · rw [if_neg h1] at hok
      by_cases h2 : c.aud ≠ ea
      · rw [if_pos h2] at hok
        exact absurd hok (by simp)
      · exact not_not.mp h2

/-- Witness for `audience_check_is_exact_equality`: a claimed audience
that is a strict sub-path of the expected audience prefix, with identical
origin, is rejected. -/
theorem audience_check_is_exact_equality_witness :
    enforceClaims
        { iss := "https://accounts.google.com",
          aud := "https://chat.aiescape.io/webhooks/email-notify",
          email := "push-invoker-serverA@myproj.iam.gserviceaccount.com",
          email_verified := .ofBool true }
        "https://chat.aiescape.io/webhooks"
        "push-invoker-serverA@myproj.iam.gserviceaccount.com"
      = .error .invalidAudience ∧ rejectionStatus .invalidAudience = 401 :=
  (audience_check_is_exact_equality _ _ _).1 rfl (by decide)

/-- C1 counterexample: the audience pair
(`https://chat.aiescape.io/webhooks/email-notify`,
`https://chat.aiescape.io/webhooks`) satisfies the prefix-of-URL policy
the claim states (identical origin, strict sub-path, no query or
fragment), yet the source's check — exact string equality — rejects an
otherwise fully valid token carrying it with `Invalid audience`.  So the
Token Verifier does not use prefix-of-URL matching. -/
theorem c1_prefix_policy_counterexample :
    specAudienceMatches "https://chat.aiescape.io/webhooks/email-notify"
        "https://chat.aiescape.io/webhooks" = true
    ∧ enforceClaims
        { iss := "https://accounts.google.com",
          aud := "https://chat.aiescape.io/webhooks/email-notify",
          email := "push-invoker-serverA@myproj.iam.gserviceaccount.com",
          email_verified := .ofBool true }
        "https://chat.aiescape.io/webhooks"
        "push-invoker-serverA@myproj.iam.gserviceaccount.com"
      = .error .invalidAudience :=
  ⟨by decide, rfl⟩

/-- C7 (amended): the Token Verifier accepts only the scheme-qualified
issuer string `https://accounts.google.com`
(`claims.iss !== "https://accounts.google.com"`, google-auth.ts
line 113); every other issuer — including the bare
`accounts.google.com` — is rejected with a 401-class rejection. -/
theorem issuer_check_requires_https_form (c : PubSubClaims) (ea ce : String) :
    (c.iss ≠ "https://accounts.google.com" →
      enforceClaims c ea ce = .error .invalidIssuer
        ∧ rejectionStatus .invalidIssuer = 401)
    ∧ (∀ r, enforceClaims c ea ce = .ok r → c.iss = "https://accounts.google.com") := by
  constructor
  · intro hne
    exact ⟨by unfold enforceClaims; rw [if_pos hne], rfl⟩
  · intro r hok
    by_cases h1 : c.iss ≠ "https://accounts.google.com"
    · unfold enforceClaims at hok
      rw [if_pos h1] at hok
      exact absurd hok (by simp)
    · exact not_not.mp h1

/-- Witness for `issuer_check_requires_https_form`: the bare issuer
string is rejected. -/
theorem issuer_check_requires_https_form_witness :
    enforceClaims
        { iss := "accounts.google.com",
          aud := "https://chat.aiescape.io/webhooks/email-notify",
          email := "push-invoker-serverA@myproj.iam.gserviceaccount.com",
          email_verified := .ofBool true }
        "https://chat.aiescape.io/webhooks/email-notify"
        "push-invoker-serverA@myproj.iam.gserviceaccount.com"
      = .error .invalidIssuer ∧ rejectionStatus .invalidIssuer = 401 :=
  (issuer_check_requires_https_form _ _ _).1 (by decide)

/-- C7 counterexample: a token that is valid in every respect except for
carrying the bare canonical issuer `accounts.google.com` — which the
claim says is accepted — is rejected by the source with
`Invalid issuer`. -/
theorem c7_bare_issuer_counterexample :
    enforceClaims
        { iss := "accounts.google.com",
          aud := "https://chat.aiescape.io/webhooks/email-notify",
          email := "push-invoker-serverA@myproj.iam.gserviceaccount.com",
          email_verified := .ofBool true }
        "https://chat.aiescape.io/webhooks/email-notify"
        "push-invoker-serverA@myproj.iam.gserviceaccount.com"
      = .error .invalidIssuer := rfl

/-- C8: for a token passing issuer, audience and signer-email checks, the
Token Verifier succeeds exactly when the `email_verified` claim is the
boolean `true` or the string `"true"`
(`claims.email_verified === true || claims.email_verified === "true"`,
google-auth.ts lines 129-136); any other value — in particular the
boolean `false` or the string `"false"` — is rejected with a 401-class
rejection even though the signer email matches exactly. -/
theorem email_verified_gate (c : PubSubClaims) (ea ce : String)
    (h1 : c.iss = "https://accounts.google.com") (h2 : c.aud = ea)
    (h3 : c.email = ce) :
    (enforceClaims c ea ce = .ok c ↔
      (c.email_verified = .ofBool true ∨ c.email_verified = .ofString "true"))
    ∧ ((c.email_verified ≠ .ofBool true ∧ c.email_verified ≠ .ofString "true") →
      enforceClaims c ea ce = .error .emailNotVerified
        ∧ rejectionStatus .emailNotVerified = 401) := by
  unfold enforceClaims
  rw [if_neg (by simp [h1]), if_neg (by simp [h2]), if_neg (by simp [h3])]
  by_cases hv : c.email_verified = .ofBool true ∨ c.email_verified = .ofString "true"
  · have hb : (c.email_verified == EmailVerifiedClaim.ofBool true
        || c.email_verified == EmailVerifiedClaim.ofString "true") = true := by
      rcases hv with h | h <;> simp [h]
    constructor
    · simp only [hb, Bool.not_true, Bool.false_eq_true, if_false]
      exact ⟨fun _ => hv, fun _ => trivial⟩
    · rintro ⟨ha, hs⟩
      rcases hv with h | h
      · exact absurd h ha
      · exact absurd h hs
  · push_neg at hv
    have hb : (c.email_verified == EmailVerifiedClaim.ofBool true
        || c.email_verified == EmailVerifiedClaim.ofString "true") = false := by
      simp [hv.1, hv.2]
    constructor
    · simp only [hb, Bool.not_false, if_true]
      constructor
      · intro h
        exact absurd h (by simp)
      · rintro (h | h)
        · exact absurd h hv.1
        · exact absurd h hv.2
    · intro _
      refine ⟨?_, rfl⟩
      simp only [hb, Bool.not_false, if_true]

/-- Witness for `email_verified_gate`: a token whose signer email matches
exactly but whose `email_verified` claim is the string `"false"` is
rejected with the 401-class `Service account email not verified`
rejection. -/
theorem email_verified_gate_witness :
    enforceClaims
        { iss := "https://accounts.google.com",
          aud := "https://chat.aiescape.io/webhooks/email-notify",
          email := "push-invoker-serverA@myproj.iam.gserviceaccount.com",
          email_verified := .ofString "false" }
        "https://chat.aiescape.io/webhooks/email-notify"
        "push-invoker-serverA@myproj.iam.gserviceaccount.com"
      = .error .emailNotVerified ∧ rejectionStatus .emailNotVerified = 401 :=
  (email_verified_gate
      { iss := "https://accounts.google.com",
        aud := "https://chat.aiescape.io/webhooks/email-notify",
        email := "push-invoker-serverA@myproj.iam.gserviceaccount.com",
        email_verified := .ofString "false" }
      "https://chat.aiescape.io/webhooks/email-notify"
      "push-invoker-serverA@myproj.iam.gserviceaccount.com"
      rfl rfl rfl).2 (by decide)

/-- Loop invariant of `listInboxGo` for a run that finds a page without
continuation token: starting at fetch index `c` with `d` more
token-carrying pages before the token-free page at index `c + d`, the
loop folds exactly the pages `c, ..., c + d` and reports
`hasMore = false`. -/
theorem listInboxGo_complete (fetchPage : Nat → HistoryPage) :
    ∀ (d c : Nat), c + d ≤ pageLimit →
      (∀ i, c ≤ i → i < c + d → optTruthy (fetchPage i).nextPageToken = true) →
      optTruthy (fetchPage (c + d)).nextPageToken = false →
      ∀ acc latest,
        listInboxGo fetchPage c acc latest =
          { messageIds := acc ++ collectSeg fetchPage c (d + 1),
            latestHistoryId := cursorSeg fetchPage latest c (d + 1),
            hasMore := false } := by
  intro d
  induction d with
  | zero =>
    intro c hc htok hstop acc latest
    rw [listInboxGo]
    rw [if_neg (by omega)]
    rw [Nat.add_zero] at hstop
    simp only [hstop, Bool.false_eq_true, if_false]
    simp [collectSeg, cursorSeg]
  | succ d ih =>
    intro c hc htok hstop acc latest
    rw [listInboxGo]
    rw [if_neg (by omega)]
    have htc : optTruthy (fetchPage c).nextPageToken = true :=
      htok c (Nat.le_refl c) (by omega)
    simp only [htc, if_true]
    rw [ih (c + 1) (by omega)
      (fun i h1 h2 => htok i (by omega) (by omega))
      (by have : c + 1 + d = c + (d + 1) := by omega
          rw [this]; exact hstop)]
    simp only [collectSeg, cursorSeg, List.append_assoc]

/-- Loop invariant of `listInboxGo` for a run that exhausts the page
budget: when every page from index `c` through `pageLimit` carries a
continuation token, the loop folds exactly the pages
`c, ..., pageLimit` (that is, `d = pageLimit + 1 - c` pages) and reports
`hasMore = true`. -/
theorem listInboxGo_truncated (fetchPage : Nat → HistoryPage) :
    ∀ (d c : Nat), c + d = pageLimit + 1 →
      (∀ i, c ≤ i → i ≤ pageLimit → optTruthy (fetchPage i).nextPageToken = true) →
      ∀ acc latest,
        listInboxGo fetchPage c acc latest =
          { messageIds := acc ++ collectSeg fetchPage c d,
            latestHistoryId := cursorSeg fetchPage latest c d,
            hasMore := true } := by
  intro d
  induction d with
  | zero =>
    intro c hc htok acc latest
    rw [listInboxGo]
    rw [if_pos (by omega)]
    simp [collectSeg, cursorSeg]
  | succ d ih =>
    intro c hc htok acc latest
    rw [listInboxGo]
    rw [if_neg (by omega)]
    have htc : optTruthy (fetchPage c).nextPageToken = true :=
      htok c (Nat.le_refl c) (by omega)
    simp only [htc, if_true]
    rw [ih (c + 1) (by omega) (fun i h1 h2 => htok i (by omega) h2)]
    simp only [collectSeg, cursorSeg, List.append_assoc]

/-- C4 (amended): `listInboxAddsSince` pages until a page without
continuation token and then reports `hasMore = false` with the item
identifiers collected in append order from the `messagesAdded` sub-events
of the fetched pages and with the last truthy per-page `historyId` as the
reported cursor (`startHistoryId` when no fetched page reported one).
Because the guard is `pages++ > pageLimit` with `pageLimit = 10`, the
loop fetches up to `pageLimit + 1 = 11` pages, so only an upstream
history whose first eleven pages all carry continuation tokens (i.e. one
with more than eleven pages) is truncated: it yields `hasMore = true`
together with exactly the data of the eleven fetched pages — the item
list is non-empty precisely when those pages contain added items, and the
reported cursor never comes from an unfetched page. -/
theorem listInbox_pagination (fetchPage : Nat → HistoryPage) (startHistoryId : String) :
    (∀ j, j ≤ pageLimit →
      (∀ i, i < j → optTruthy (fetchPage i).nextPageToken = true) →
      optTruthy (fetchPage j).nextPageToken = false →
      listInboxAddsSince fetchPage startHistoryId =
        { messageIds := collectSeg fetchPage 0 (j + 1),
          latestHistoryId := cursorSeg fetchPage startHistoryId 0 (j + 1),
          hasMore := false })
    ∧ ((∀ i, i ≤ pageLimit → optTruthy (fetchPage i).nextPageToken = true) →
      listInboxAddsSince fetchPage startHistoryId =
        { messageIds := collectSeg fetchPage 0 (pageLimit + 1),
          latestHistoryId := cursorSeg fetchPage startHistoryId 0 (pageLimit + 1),
          hasMore := true }) := by
  constructor
  · intro j hj htok hstop
    unfold listInboxAddsSince
    rw [listInboxGo_complete fetchPage j 0 (by omega)
      (fun i h1 h2 => htok i (by omega))
      (by rw [Nat.zero_add]; exact hstop)]
    simp
  · intro htok
    unfold listInboxAddsSince
    rw [listInboxGo_truncated fetchPage (pageLimit + 1) 0 (by omega)
      (fun i h1 h2 => htok i h2)]
    simp

/-- A one-page upstream history used as concrete input for
`listInbox_pagination`. -/
def wPages (_ : Nat) : HistoryPage :=
  { history := some [{ messagesAdded := some [{ message := some { id := some "w1" } }] }],
    historyId := some "55", nextPageToken := none }

/-- Witness for `listInbox_pagination`: a single-page history is folded
completely with `hasMore = false`. -/
theorem listInbox_pagination_witness :
    listInboxAddsSince wPages "50" =
      { messageIds := collectSeg wPages 0 1,
        latestHistoryId := cursorSeg wPages "50" 0 1, hasMore := false } :=
  (listInbox_pagination wPages "50").1 0 (by decide)
    (fun i hi => absurd hi (Nat.not_lt_zero i)) (by decide)

/-- An upstream history with exactly eleven pages: fetches 0 through 9
carry a continuation token, fetch 10 returns the final page without
one.  Each page contributes one added message id. -/
def elevenPages (i : Nat) : HistoryPage :=
  if i < 10 then
    { history := some [{ messagesAdded := some [{ message := some { id := some "m" } }] }],
      historyId := some "150", nextPageToken := some "tok" }
  else
    { history := some [{ messagesAdded := some [{ message := some { id := some "m" } }] }],
      historyId := some "199", nextPageToken := none }

/-- C4 counterexample: an upstream history with eleven pages — more pages
than the configured ten-page bound — is NOT truncated: the loop's
post-increment guard `pages++ > pageLimit` admits an eleventh fetch, so
`listInboxAddsSince` consumes all eleven pages and reports
`hasMore = false`, contradicting the claim that any history with more
than ten pages yields `truncated = true`. -/
theorem c4_eleven_page_counterexample :
    (listInboxAddsSince elevenPages "100").hasMore = false := by
  have h := listInboxGo_complete elevenPages 10 0 (by decide)
    (fun i h1 h2 => by
      have hi : i < 10 := by omega
      simp only [elevenPages]
      rw [if_pos hi]
      decide)
    (by decide)
    [] "100"
  unfold listInboxAddsSince
  rw [h]

/-- The success path of the handler: with a truthy `x-mcp-name` header, a
truthy access token, a stored checkpoint present and a successful
enumeration, the handler enumerates from the stored checkpoint, then
writes the delivery-derived cursor, then answers 200 with the
items-dependent response. -/
theorem emailNotifyHandler_ok
    (parsed : Option ParsedPayload) (attrs : Option (List (String × String)))
    (server auth cur : String) (listInbox : String → Except String EnumRes)
    (r : EnumRes)
    (hs : server ≠ "") (ht : jsTrim (jsSlice auth 7) ≠ "") (hc : cur ≠ "")
    (hl : listInbox cur = .ok r) :
    emailNotifyHandler parsed attrs (some server) (some auth) (some cur) listInbox =
      ([HandlerEvent.enumCall cur,
        HandlerEvent.cursorPut server (templateInterp (extractedHistoryId parsed attrs))],
       .okJson (successResponse server (extractedEmailAddress parsed attrs) r.messageIds) 200) := by
  have hauth : auth ≠ "" := fun h => ht (by rw [h]; rfl)
  have e1 : optTruthy (some server) = true := by simp [optTruthy, hs]
  have e2 : optTruthy (some auth) = true := by simp [optTruthy, hauth]
  have e3 : optTruthy (some cur) = true := by simp [optTruthy, hc]
  unfold emailNotifyHandler successResponse
  simp only [e1, e2, e3, Option.getD_some, Bool.not_true, Bool.false_eq_true,
    if_false, hl]
  rw [if_neg ht]
  by_cases h0 : r.messageIds.length = 0 <;> simp [h0]

/-- C3: on every delivery that reaches enumeration (truthy server header,
truthy access token, stored checkpoint present, enumeration succeeds),
the handler invokes `listInboxAddsSince` with the cursor read from the
Checkpoint Store (`lastHistoryId`, index.ts line 325) — not with the
cursor carried in the delivery — and then, before the success response is
emitted, persists the delivery's own reported as-of cursor
(`latestHistoryId`, the interpolation of the extracted `historyId`,
index.ts lines 307 and 333) — not the enumerator's reported
`newLatestHistoryId`: the event trace and the response are independent of
`r.latestHistoryId`, and the `cursorPut` event precedes the returned
response in program order. -/
theorem checkpoint_read_enumerate_write_discipline
    (parsed : Option ParsedPayload) (attrs : Option (List (String × String)))
    (server auth cur : String) (listInbox : String → Except String EnumRes)
    (r : EnumRes)
    (hs : server ≠ "") (ht : jsTrim (jsSlice auth 7) ≠ "") (hc : cur ≠ "")
    (hl : listInbox cur = .ok r) :
    ∃ resp : WebhookResponse,
      emailNotifyHandler parsed attrs (some server) (some auth) (some cur) listInbox =
        ([HandlerEvent.enumCall cur,
          HandlerEvent.cursorPut server (templateInterp (extractedHistoryId parsed attrs))],
         .okJson resp 200)
      ∧ resp.reqResponseCode = 202 := by
  refine ⟨successResponse server (extractedEmailAddress parsed attrs) r.messageIds,
    emailNotifyHandler_ok parsed attrs server auth cur listInbox r hs ht hc hl, ?_⟩
  unfold successResponse
  by_cases h0 : r.messageIds.length = 0 <;> simp [h0]

/-- Witness for `checkpoint_read_enumerate_write_discipline`: the stored
checkpoint is `"100"`, the delivery reports historyId `"150"`, and the
enumerator reports a different new cursor `"149"`; enumeration starts
from `"100"` and the write stores `"150"`. -/
theorem checkpoint_discipline_witness :
    ∃ resp : WebhookResponse,
      emailNotifyHandler (some { emailAddress := some "a@x.com", historyId := some "150" })
          none (some "serverA") (some "Bearer tok123") (some "100")
          (fun _ => Except.ok { messageIds := ["m1", "m2"], latestHistoryId := "149", hasMore := false }) =
        ([HandlerEvent.enumCall "100",
          HandlerEvent.cursorPut "serverA"
            (templateInterp (extractedHistoryId
              (some { emailAddress := some "a@x.com", historyId := some "150" }) none))],
         .okJson resp 200)
      ∧ resp.reqResponseCode = 202 :=
  checkpoint_read_enumerate_write_discipline
    (some { emailAddress := some "a@x.com", historyId := some "150" }) none
    "serverA" "Bearer tok123" "100"
    (fun _ => Except.ok { messageIds := ["m1", "m2"], latestHistoryId := "149", hasMore := false })
    { messageIds := ["m1", "m2"], latestHistoryId := "149", hasMore := false }
    (by decide) (by decide) (by decide) rfl

/-- C5: a delivery whose tenant/server has no prior checkpoint in the
Checkpoint Store (`getServerCursor` returned null, so
`if (!lastHistoryId)` fires at index.ts lines 310-313) is answered with a
MalformedRequest-class `c.json({ error }, 400)` — never a zero-item
success — and the handler performs no enumerator invocation and no
checkpoint write, whatever the rest of the delivery contains. -/
theorem missing_checkpoint_is_rejected
    (parsed : Option ParsedPayload) (attrs : Option (List (String × String)))
    (serverHeader mcpAuthHeader : Option String)
    (listInbox : String → Except String EnumRes) :
    ∃ msg, emailNotifyHandler parsed attrs serverHeader mcpAuthHeader none listInbox =
      ([], .errorJson msg 400) := by
  simp only [emailNotifyHandler]
  repeat' split
  all_goals first
    | exact ⟨_, rfl⟩
    | simp_all [optTruthy]

/-- C2 (code evaluated at the failing input): a successfully processed
delivery that finds items is answered with `reqResponseCode = 202` and
empty proxied content, but the structured summary — which does contain
the server name, the mailbox address and the ordered item identifiers —
is placed in a top-level `promptContent` field of the response object
(index.ts lines 352-361) while `processData` is never set: the claim
(and the `WebhookResponse` type declared in types.d.ts, which has
`processData` and no top-level `promptContent`) requires the summary
under `processData.promptContent`, so the code contradicts its own
declared response contract. -/
theorem c2_items_summary_not_in_processData :
    (emailNotifyHandler (some { emailAddress := some "a@x.com", historyId := some "150" })
        none (some "serverA") (some "Bearer tok123") (some "100")
        (fun _ => Except.ok { messageIds := ["m1", "m2"], latestHistoryId := "150", hasMore := false })).2 =
      .okJson { reqResponseCode := 202, reqResponseContent := "",
                reqResponseContentType := some "text",
                promptContent := some (promptFor "serverA" (some "a@x.com") ["m1", "m2"]),
                processData := none } 200 := rfl

/-- The zero-item half of C2 holds as claimed: a delivery that finds no
new items is acknowledged with `reqResponseCode = 202`, empty content and
no `processData` (index.ts lines 335-343). -/
theorem c2_zero_items_response :
    (emailNotifyHandler (some { emailAddress := some "a@x.com", historyId := some "150" })
        none (some "serverA") (some "Bearer tok123") (some "100")
        (fun _ => Except.ok { messageIds := [], latestHistoryId := "150", hasMore := false })).2 =
      .okJson { reqResponseCode := 202, reqResponseContent := "",
                reqResponseContentType := some "text",
                promptContent := none, processData := none } 200 := rfl

/-- C6 (code evaluated at the failing input): a transient upstream
failure — `listInboxAddsSince` throwing the `makeRequest` error for an
upstream 503 — is caught by the handler's catch-all (index.ts
lines 364-371) and answered with HTTP 400, the same client-error class as
a structurally invalid payload; the code's own comment at line 366
("Only 4xx when truly malformed") and the claim both require a non-4xx
response here so that the broker retries. -/
theorem c6_transient_failure_answered_400 :
    emailNotifyHandler none none (some "serverA") (some "Bearer tok123") (some "100")
        (fun _ => Except.error (makeRequestError 503 "Service Unavailable")) =
      ([HandlerEvent.enumCall "100"],
       .errorJson (makeRequestError 503 "Service Unavailable") 400) := rfl

/-- C9: precedence of the decoded data blob over the attribute map
(index.ts lines 271-280).  For each of the two logical fields: when the
decoded JSON payload carries the field, that value is used regardless of
the attributes; when the payload lacks the field, or the blob failed to
decode as JSON at all, the extraction falls back to the flat attribute
map. -/
theorem envelope_blob_precedes_attributes (attrs : Option (List (String × String))) :
    (∀ (p : ParsedPayload) (v : String), p.historyId = some v →
      extractedHistoryId (some p) attrs = some v)
    ∧ (∀ p : ParsedPayload, p.historyId = none →
      extractedHistoryId (some p) attrs = attrGet attrs "historyId")
    ∧ extractedHistoryId none attrs = attrGet attrs "historyId"
    ∧ (∀ (p : ParsedPayload) (v : String), p.emailAddress = some v →
      extractedEmailAddress (some p) attrs = some v)
    ∧ (∀ p : ParsedPayload, p.emailAddress = none →
      extractedEmailAddress (some p) attrs = attrGet attrs "emailAddress")
    ∧ extractedEmailAddress none attrs = attrGet attrs "emailAddress" := by
  refine ⟨fun p v hp => ?_, fun p hp => ?_, rfl, fun p v hp => ?_, fun p hp => ?_, rfl⟩
    <;> simp [extractedHistoryId, extractedEmailAddress, payloadHistoryId,
      payloadEmailAddress, nullishCoalesce, hp]

/-- Witness for `envelope_blob_precedes_attributes`: with
`attributes.historyId = "999"` present, a decoded payload carrying
`historyId = "150"` wins, and a decoded payload without `historyId`
falls back to `"999"`. -/
theorem envelope_blob_precedes_attributes_witness :
    extractedHistoryId (some { emailAddress := none, historyId := some "150" })
        (some [("historyId", "999")]) = some "150"
    ∧ extractedHistoryId (some { emailAddress := none, historyId := none })
        (some [("historyId", "999")]) = some "999" := by
  have h := envelope_blob_precedes_attributes (some [("historyId", "999")])
  refine ⟨h.1 { emailAddress := none, historyId := some "150" } "150" rfl, ?_⟩
  rw [h.2.1 { emailAddress := none, historyId := none } rfl]
  rfl

/-- C10: a delivery that passes verification and the header checks, whose
tenant has a stored checkpoint, but which carries no `historyId` in
either the decoded blob or the attribute map, still completes
successfully: the handler acknowledges with a 202-coded response and
overwrites the tenant's checkpoint with the literal string
`"undefined"` — the JavaScript template interpolation
`` `${historyId}` `` of an undefined value (index.ts lines 307
and 333) — replacing the previously stored cursor. -/
theorem missing_history_id_writes_undefined_cursor
    (parsed : Option ParsedPayload) (attrs : Option (List (String × String)))
    (server auth cur : String) (listInbox : String → Except String EnumRes)
    (r : EnumRes)
    (hhid : extractedHistoryId parsed attrs = none)
    (hs : server ≠ "") (ht : jsTrim (jsSlice auth 7) ≠ "") (hc : cur ≠ "")
    (hl : listInbox cur = .ok r) :
    ∃ resp : WebhookResponse,
      emailNotifyHandler parsed attrs (some server) (some auth) (some cur) listInbox =
        ([HandlerEvent.enumCall cur, HandlerEvent.cursorPut server "undefined"],
         .okJson resp 200)
      ∧ resp.reqResponseCode = 202 := by
  refine ⟨successResponse server (extractedEmailAddress parsed attrs) r.messageIds, ?_, ?_⟩
  · have h := emailNotifyHandler_ok parsed attrs server auth cur listInbox r hs ht hc hl
    rw [hhid] at h
    exact h
  · unfold successResponse
    by_cases h0 : r.messageIds.length = 0 <;> simp [h0]

/-- Witness for `missing_history_id_writes_undefined_cursor`: a delivery
with a decoded payload lacking `historyId` and no attributes overwrites
checkpoint `"100"` with the string `"undefined"` and is still
acknowledged with a 202-coded response. -/
theorem missing_history_id_witness :
    ∃ resp : WebhookResponse,
      emailNotifyHandler (some { emailAddress := some "a@x.com", historyId := none })
          none (some "serverA") (some "Bearer tok123") (some "100")
          (fun _ => Except.ok { messageIds := [], latestHistoryId := "101", hasMore := false }) =
        ([HandlerEvent.enumCall "100", HandlerEvent.cursorPut "serverA" "undefined"],
         .okJson resp 200)
      ∧ resp.reqResponseCode = 202 :=
  missing_history_id_writes_undefined_cursor
    (some { emailAddress := some "a@x.com", historyId := none }) none
    "serverA" "Bearer tok123" "100"
    (fun _ => Except.ok { messageIds := [], latestHistoryId := "101", hasMore := false })
    { messageIds := [], latestHistoryId := "101", hasMore := false }
    rfl (by decide) (by decide) (by decide) rfl

/-- Witness for `missing_checkpoint_is_rejected`: a concrete delivery
with no stored checkpoint is answered 400 with no events. -/
theorem missing_checkpoint_is_rejected_witness :
    ∃ msg, emailNotifyHandler none none (some "serverA") (some "Bearer tok123") none
        (fun _ => Except.ok { messageIds := ["m1"], latestHistoryId := "5", hasMore := false }) =
      ([], .errorJson msg 400) :=
  missing_checkpoint_is_rejected none none (some "serverA") (some "Bearer tok123")
    (fun _ => Except.ok { messageIds := ["m1"], latestHistoryId := "5", hasMore := false })
